import Mathlib

/-!
# Verification of the sampling core of `create_sample.py` (src/metadata.py)

Shallow embedding of the sampling utility: `create_comprehensive_sample`,
`create_synthetic_sample` and `verify_sample`.  Tables are ordered lists of
rows over a named column list (the pandas `DataFrame`s of the source); cells
are either a string, an integer, or null (`NaN`).  Python's global random
state is modelled by an explicit `Rng` value threaded through every call that
the source leaves unseeded; draws made with `random_state=42` are modelled by
a deterministic selection that consumes no `Rng` state.  Writing a CSV
(`to_csv`) is modelled as an explicit `WriteEvent` in the returned effect
list.  Reading a CSV (`read_csv`) is modelled by an `Except PyErr Table`
argument: `.error` when the file is missing or unreadable.
-/

/-- A cell of a table: null (pandas `NaN`/`NaT`), a string, or an integer. -/
inductive Value where
  | null
  | str (s : String)
  | int (n : Int)
deriving DecidableEq

/-- A row: the list of cells, positionally aligned with the table's columns. -/
abbrev Row := List Value

/-- A pandas `DataFrame`: named columns and an ordered list of rows. -/
structure Table where
  cols : List String
  rows : List Row
deriving DecidableEq

/-- The Python exceptions the script can raise inside its `try` blocks. -/
inductive PyErr where
  | keyError
  | readError
  | unboundLocal
deriving DecidableEq

/-- One `to_csv` call: the path written and the table persisted there. -/
structure WriteEvent where
  path : String
  table : Table
deriving DecidableEq

/-- Python's global random state, made explicit: a stream of naturals driving
`randint`/`choice`/`sample` index picks and a stream of rationals (idealised
values in `[0,1)`) driving `random.random()`, with the positions consumed so
far. -/
structure Rng where
  nats : Nat → Nat
  floats : Nat → Rat
  npos : Nat
  fpos : Nat

/-- Draw the next unseeded index pick, reduced mod `m` (callers pass `m ≥ 1`). -/
def Rng.nextNat (r : Rng) (m : Nat) : Nat × Rng :=
  (r.nats r.npos % m, ⟨r.nats, r.floats, r.npos + 1, r.fpos⟩)

/-- Draw the next `random.random()` value. -/
def Rng.nextFloat (r : Rng) : Rat × Rng :=
  (r.floats r.fpos, ⟨r.nats, r.floats, r.npos, r.fpos + 1⟩)

/-- Python `random.randint(a, b)`: one draw, uniform on `[a, b]`. -/
def Rng.randint (r : Rng) (a b : Nat) : Nat × Rng :=
  let (k, r') := r.nextNat (b - a + 1)
  (a + k, r')

/-- Python `random.choice(xs)`: one draw picking an element of `xs`. -/
def Rng.choice (r : Rng) (xs : List α) (dflt : α) : α × Rng :=
  let (i, r') := r.nextNat xs.length
  (xs.getD i dflt, r')

/-- Unseeded sampling without replacement (`DataFrame.sample(k)` with no
`random_state`, and Python `random.sample`): `k` successive picks, each
removing the chosen element. -/
def sampleUnseeded (dflt : α) : List α → Nat → Rng → List α × Rng
  | _, 0, rng => ([], rng)
  | [], _ + 1, rng => ([], rng)
  | x :: xs, k + 1, rng =>
    let (i, rng') := rng.nextNat (x :: xs).length
    let pick := (x :: xs).getD i x
    let (rest, rng'') := sampleUnseeded dflt ((x :: xs).eraseIdx i) k rng'
    (pick :: rest, rng'')

/-- Sampling without replacement with `random_state=42`: deterministic given
the input list and count, consuming no global random state.  The fixed seed
makes the draw a pure function of its arguments; the model realises it as the
first `k` rows. -/
def sampleSeeded (xs : List α) (k : Nat) : List α :=
  xs.take k

/-! ## String helpers (explicit, kernel-friendly) -/

/-- Does `pat` occur at the head of `hay`? -/
def beginsWith : List Char → List Char → Bool
  | _, [] => true
  | [], _ :: _ => false
  | h :: hs, p :: ps => h = p && beginsWith hs ps

/-- Does `pat` occur contiguously anywhere in `hay`? -/
def containsSub (pat : List Char) : List Char → Bool
  | [] => pat.isEmpty
  | c :: cs => beginsWith (c :: cs) pat || containsSub pat cs

/-- Case-insensitive substring test: `Series.str.contains(pat, case=False)`
on one cell. -/
def strContainsCI (s pat : String) : Bool :=
  containsSub (pat.toList.map Char.toLower) (s.toList.map Char.toLower)

/-- Digits of a decimal numeral to the natural number they denote. -/
def digitsToNat (cs : List Char) : Nat :=
  cs.foldl (fun a c => a * 10 + (c.toNat - 48)) 0

/-- The year `pd.to_datetime(cell, errors='coerce').year` extracts from a
date string: its leading `YYYY` component, `none` (coerced to `NaT`) when the
cell is not a string starting with a four-digit year. -/
def parseYearVal : Value → Option Int
  | .str s =>
    let ys := s.toList.takeWhile (· ≠ '-')
    if ys.length = 4 && ys.all Char.isDigit then some (digitsToNat ys) else none
  | _ => none

/-- Zero-padded decimal rendering, Python `f-string` `{i:0wd}`. -/
def padNum (w : Nat) (i : Nat) : String :=
  let s := toString i
  String.mk (List.replicate (w - s.length) '0') ++ s

/-- Python `'; '.join`. -/
def joinSemicolon : List String → String
  | [] => ""
  | [x] => x
  | x :: xs => x ++ "; " ++ joinSemicolon xs

/-! ## Table operations (the pandas calls the script makes) -/

/-- Column membership, `c in df.columns`. -/
def Table.hasCol (t : Table) (c : String) : Bool :=
  t.cols.contains c

/-- Index of a column name in a column list. -/
def colIdx (cols : List String) (c : String) : Option Nat :=
  cols.findIdx? (· = c)

/-- The cell of row `r` (aligned with `cols`) in column `c`; null when the
column is absent or the row is short. -/
def getCell (cols : List String) (r : Row) (c : String) : Value :=
  match colIdx cols c with
  | some i => r.getD i .null
  | none => .null

/-- `df[c]`: the column's cells, or a Python `KeyError` when absent. -/
def Table.getCol (t : Table) (c : String) : Except PyErr (List Value) :=
  if t.hasCol c then
    .ok (t.rows.map fun r => getCell t.cols r c)
  else .error .keyError

/-- `df[c] = vs`: overwrite the column, or append it when new. -/
def Table.setCol (t : Table) (c : String) (vs : List Value) : Table :=
  match colIdx t.cols c with
  | some i => ⟨t.cols, (t.rows.zip vs).map fun p => p.1.set i p.2⟩
  | none => ⟨t.cols ++ [c], (t.rows.zip vs).map fun p => p.1 ++ [p.2]⟩

/-- `df.drop(c, axis=1)` (identity when the column is absent; the script only
drops columns it knows are present). -/
def Table.dropCol (t : Table) (c : String) : Table :=
  match colIdx t.cols c with
  | some i => ⟨t.cols.eraseIdx i, t.rows.map (·.eraseIdx i)⟩
  | none => t

/-- `df.head(n)`. -/
def Table.head (t : Table) (n : Nat) : Table :=
  ⟨t.cols, t.rows.take n⟩

/-- Re-align a row from one column list to another, null-filling new columns
(the alignment `pd.concat` performs). -/
def alignRow (fromCols toCols : List String) (r : Row) : Row :=
  toCols.map fun c => getCell fromCols r c

/-- `pd.concat([t, u])`: the union of the column sets (first table's order,
then `u`'s new columns), rows of both re-aligned. -/
def Table.concat (t u : Table) : Table :=
  let newCols := t.cols ++ u.cols.filter (fun c => !(t.cols.contains c))
  ⟨newCols, t.rows.map (alignRow t.cols newCols) ++ u.rows.map (alignRow u.cols newCols)⟩

/-- First-occurrence deduplication over fully-aligned rows, with the rows
already kept as the `seen` accumulator. -/
def dedupAux (seen : List Row) : List Row → List Row
  | [] => []
  | r :: rs =>
    if r ∈ seen then dedupAux seen rs
    else r :: dedupAux (seen ++ [r]) rs

/-- `df.drop_duplicates()`: keep the first of every run of fully-equal rows
(pandas treats `NaN` cells as equal here, as does `Value.null`). -/
def Table.dropDuplicates (t : Table) : Table :=
  ⟨t.cols, dedupAux [] t.rows⟩

/-! ## Step 1: the stratified base sample (lines 25–39) -/

/-- Insertion into a sorted list of years. -/
def insertSortedInt (x : Int) : List Int → List Int
  | [] => [x]
  | y :: ys => if x ≤ y then x :: y :: ys else y :: insertSortedInt x ys

/-- Insertion sort of year keys (`groupby` sorts group keys ascending). -/
def sortInts : List Int → List Int
  | [] => []
  | x :: xs => insertSortedInt x (sortInts xs)

/-- The `temp_year` key of a row: its year, or `none` for `NaT` rows (which
`groupby` drops). -/
def cellYear (cols : List String) (r : Row) : Option Int :=
  match getCell cols r "temp_year" with
  | .int y => some y
  | _ => none

/-- The distinct non-null year keys, ascending (`groupby('temp_year')`). -/
def yearKeys (t : Table) : List Int :=
  sortInts (t.rows.filterMap (cellYear t.cols)).dedup

/-- The year strata: for each key, its rows in source order. -/
def stratGroups (t : Table) : List (List Row) :=
  (yearKeys t).map fun y => t.rows.filter fun r => cellYear t.cols r = some y

/-- The per-stratum draws of
`groupby('temp_year').apply(lambda x: x.sample(min(len(x), max(1, int(sample_size * len(x) / len(df_full))))))`:
each stratum contributes an unseeded draw without replacement of
`min(len(x), max(1, ⌊n·len(x)/total⌋))` rows (Python's `int()` truncates the
float quotient, which is the floor for these non-negative values). -/
def stratDraws (n total : Nat) : List (List Row) → Rng → List Row × Rng
  | [], rng => ([], rng)
  | g :: gs, rng =>
    let m := min g.length (max 1 (n * g.length / total))
    ((sampleUnseeded [] g m rng).1 ++
        (stratDraws n total gs (sampleUnseeded [] g m rng).2).1,
      (stratDraws n total gs (sampleUnseeded [] g m rng).2).2)

/-- Lines 30–32: the grouped draws, then `.sample(frac=1)` (an unseeded
shuffle) and `.head(sample_size)`.  `t` already carries `temp_year`. -/
def stratifiedSample (t : Table) (n : Nat) (rng : Rng) : Table × Rng :=
  let dr := stratDraws n t.rows.length (stratGroups t) rng
  let sh := sampleUnseeded [] dr.1 dr.1.length dr.2
  (⟨t.cols, sh.1.take n⟩, sh.2)

/-- The body of the `try` at lines 27–33: extract years, stratify, then drop
`temp_year` from `df_full`.  The bare `except` at line 34 would catch anything
raised here; on CSV-sourced cells (strings and `NaN`) every operation in the
body is total (`to_datetime(errors='coerce')` coerces instead of raising), so
the attempt is always `.ok`; the `.error` branch of callers mirrors the
source's `except` structurally.  Returns (sample_df, df_full', rng'). -/
def stratAttempt (dfFull : Table) (n : Nat) (rng : Rng) :
    Except PyErr (Table × Table × Rng) :=
  match dfFull.getCol "publish_time" with
  | .error e => .error e
  | .ok dates =>
    let years := dates.map fun v =>
      match parseYearVal v with
      | some y => Value.int y
      | none => Value.null
    let dfY := dfFull.setCol "temp_year" years
    .ok ((stratifiedSample dfY n rng).1, dfY.dropCol "temp_year",
      (stratifiedSample dfY n rng).2)

/-- Lines 36 and 39: `df_full.sample(n=min(sample_size, len(df_full)), random_state=42)`,
the seeded uniform draw used when the date column is absent or stratification
fails. -/
def uniformFallback (dfFull : Table) (n : Nat) : Table :=
  ⟨dfFull.cols, sampleSeeded dfFull.rows (min n dfFull.rows.length)⟩

/-- Lines 25–39: the whole base-sample step.
Returns (sample_df, df_full-after-the-step, rng'). -/
def baseSampleStep (dfFull : Table) (n : Nat) (rng : Rng) : Table × Table × Rng :=
  if dfFull.hasCol "publish_time" then
    match stratAttempt dfFull n rng with
    | .ok res => res
    | .error _ => (uniformFallback dfFull n, dfFull, rng)
  else
    (uniformFallback dfFull n, dfFull, rng)

/-! ## Steps 2–3: keyword boost and abstract boost (lines 44–56) -/

def covidKeywords : List String := ["covid", "sars-cov-2", "coronavirus", "pandemic"]

/-- `df_full['title'].str.contains(keyword, case=False, na=False)` on one row. -/
def titleMatches (cols : List String) (r : Row) (kw : String) : Bool :=
  match getCell cols r "title" with
  | .str s => strContainsCI s kw
  | _ => false

/-- Lines 46–50: the keyword loop.  Each iteration reads `df_full['title']`
(a `KeyError` when the column is missing escapes to the outer handler), and
when the keyword matches at least one row, unions a seeded draw of up to 50
matches into the working set, deduplicates, and truncates to `n`. -/
def keywordLoop (dfFull : Table) (n : Nat) : List String → Table → Except PyErr Table
  | [], acc => .ok acc
  | kw :: kws, acc =>
    match dfFull.getCol "title" with
    | .error e => .error e
    | .ok _ =>
      let km := dfFull.rows.filter fun r => titleMatches dfFull.cols r kw
      if 0 < km.length then
        keywordLoop dfFull n kws
          (((acc.concat ⟨dfFull.cols, sampleSeeded km (min 50 km.length)⟩).dropDuplicates).head n)
      else keywordLoop dfFull n kws acc

/-- `abstract.notna() & (abstract.str.len() > 100)` on one cell. -/
def abstractOk (v : Value) : Bool :=
  match v with
  | .str s => 100 < s.length
  | _ => false

/-- Lines 53–56: the abstract boost.  Reads `df_full['abstract']` (possible
`KeyError`), and when at least one row qualifies, unions a seeded draw of up
to 1000 such rows, deduplicates, truncates to `n`. -/
def abstractStep (dfFull : Table) (sdf : Table) (n : Nat) : Except PyErr Table :=
  match dfFull.getCol "abstract" with
  | .error e => .error e
  | .ok _ =>
    let ha := dfFull.rows.filter fun r => abstractOk (getCell dfFull.cols r "abstract")
    if 0 < ha.length then
      .ok (((sdf.concat ⟨dfFull.cols, sampleSeeded ha (min 1000 ha.length)⟩).dropDuplicates).head n)
    else .ok sdf

/-- Steps 2–3 composed (lines 44–56). -/
def boostSteps (dfFull : Table) (sdf : Table) (n : Nat) : Except PyErr Table :=
  match keywordLoop dfFull n covidKeywords sdf with
  | .error e => .error e
  | .ok s2 => abstractStep dfFull s2 n

/-- The working set after steps 1–3 for a successfully read source table. -/
def workingSetAfterBoosts (dfFull : Table) (n : Nat) (rng : Rng) : Except PyErr Table :=
  boostSteps (baseSampleStep dfFull n rng).2.1 (baseSampleStep dfFull n rng).1 n

/-! ## Step 4: synthetic augmentation (lines 65–87) and the main function -/

/-- The field schema shared by the synthetic dicts of lines 71–82 and 141–152. -/
def augCols : List String :=
  ["cord_uid", "title", "abstract", "publish_time", "authors", "journal", "url",
   "pdf_json_files", "pmc_json_files", "who_covidence_id"]

/-- Line 77: the five journals of the augmentation loop. -/
def journalsAug : List String := ["Nature Medicine", "Science", "The Lancet", "BMJ", "JAMA"]

/-- A cell rendered into an f-string. -/
def valueRepr : Value → String
  | .null => "nan"
  | .str s => s
  | .int n => toString n

/-- Stand-in for Python's `repr` of the previous iteration's dict, as
interpolated by `f'pdf{synthetic}.json'` at lines 79–80.  Only reachable for
`i ≥ 1`, and proved unreachable altogether (`synthAugRow` errors at `i = 0`
first), so only its totality matters. -/
def pyReprRow (r : Row) : String := joinSemicolon (r.map valueRepr)

/-- One iteration of the loop at lines 70–83, building the dict literal.
Python evaluates the dict's values in key order: `publish_time` consumes
three `randint` draws, `journal` one `choice` draw, and then
`pdf_json_files`' f-string reads the name `synthetic` — the very variable the
dict is being assigned to, which is unbound on the first iteration, raising
`UnboundLocalError` (modelled by `boundSynthetic = none → .error`). -/
def synthAugRow (i : Nat) (boundSynthetic : Option Row) (rng : Rng) :
    Except Rng (Row × Rng) :=
  let (a, r1) := rng.randint 0 2
  let (mo, r2) := r1.randint 1 12
  let (d, r3) := r2.randint 1 28
  let (j, r4) := r3.choice journalsAug "Nature Medicine"
  match boundSynthetic with
  | none => .error r4
  | some prev =>
    .ok ([Value.str ("synth_" ++ padNum 4 i),
      .str ("Synthetic COVID-19 Research Paper " ++ toString i ++ " on Treatment and Prevention"),
      .str "This is a synthetic abstract for testing purposes. It discusses COVID-19 treatment options and prevention strategies. This paper was generated for the sample dataset.",
      .str ("202" ++ toString a ++ "-" ++ padNum 2 mo ++ "-" ++ padNum 2 d),
      .str ("Researcher " ++ toString i ++ "; Co-Author " ++ toString i ++ "; Team Member " ++ toString i),
      .str j,
      .str ("https://example.com/synthetic/" ++ toString i),
      .str ("pdf" ++ pyReprRow prev ++ ".json"),
      .str ("pmc" ++ pyReprRow prev ++ ".json"),
      .str ("WHO_COV_" ++ padNum 4 i)], r4)

/-- The loop `for i in range(count)` of lines 70–83, from index `i`, with the
value the name `synthetic` currently holds. -/
def synthAugLoopAux : Nat → Nat → Option Row → Rng → Except Rng (List Row × Rng)
  | _, 0, _, rng => .ok ([], rng)
  | i, c + 1, bound, rng =>
    match synthAugRow i bound rng with
    | .error r => .error r
    | .ok (row, r) =>
      match synthAugLoopAux (i + 1) c (some row) r with
      | .error r' => .error r'
      | .ok (rows, r') => .ok (row :: rows, r')

/-- Lines 70–83: the hundred-iteration augmentation loop, `synthetic` unbound
at entry. -/
def synthAugLoop (rng : Rng) : Except Rng (List Row × Rng) :=
  synthAugLoopAux 0 100 none rng

/-- The body of the `try` at lines 15–103: base sample, boosts, cleanup and
truncation, augmentation, concat, save, return.  An `.error` is a raised
exception reaching the handler at line 105 (with the random state at that
point).  The print statements (including lines 95–101, which subscript
`final_sample` and could themselves raise `KeyError`) come after the
augmentation loop and are never reached, as the loop always raises. -/
def comprehensiveTry (dfFull : Table) (outputPath : String) (n : Nat) (rng : Rng) :
    Except (PyErr × Rng) (Table × List WriteEvent × Rng) :=
  let bs := baseSampleStep dfFull n rng
  match boostSteps bs.2.1 bs.1 n with
  | .error e => .error (e, bs.2.2)
  | .ok sdf3 =>
    let sdf4 := if sdf3.hasCol "temp_year" then sdf3.dropCol "temp_year" else sdf3
    let sdf5 := sdf4.head n
    match synthAugLoop bs.2.2 with
    | .error rngE => .error (.unboundLocal, rngE)
    | .ok res =>
      let finalSample := sdf5.concat ⟨augCols, res.1⟩
      .ok (finalSample, [⟨outputPath, finalSample⟩], res.2)

/-! ## The pure-synthetic fallback `create_synthetic_sample` (lines 110–159) -/

/-- Lines 120–131. -/
def researchTopics : List String :=
  ["COVID-19 Treatment and Vaccine Development",
   "SARS-CoV-2 Transmission Dynamics",
   "Pandemic Response Strategies",
   "Clinical Outcomes and Risk Factors",
   "Public Health Interventions",
   "Viral Genomics and Evolution",
   "Healthcare System Preparedness",
   "Social and Economic Impacts",
   "Diagnostic Testing Methods",
   "Therapeutic Interventions"]

/-- Lines 117–118. -/
def journalsSynth : List String :=
  ["Nature Medicine", "Science", "The Lancet", "BMJ", "JAMA", "NEJM",
   "PLOS ONE", "Cell", "Nature", "Science Translational Medicine"]

/-- Line 133: `[f'Researcher {i}' for i in range(1, 101)]`. -/
def authorsPool : List String :=
  (List.range 100).map fun i => "Researcher " ++ toString (i + 1)

/-- Python `str.lower()`. -/
def lowerStr (s : String) : String := String.mk (s.toList.map Char.toLower)

/-- Line 149: `pdf_json_files` is kept (non-null) when `random.random() > 0.3`. -/
def pdfFileKept (u : Rat) : Bool := (3 : Rat) / 10 < u

/-- Line 150: `pmc_json_files` is kept when `random.random() > 0.5`. -/
def pmcFileKept (u : Rat) : Bool := (1 : Rat) / 2 < u

/-- Line 151: `who_covidence_id` is kept when `random.random() > 0.7`. -/
def whoIdKept (u : Rat) : Bool := (7 : Rat) / 10 < u

/-- The draws of lines 137–147 for one synthetic paper, in Python's
evaluation order: year/month/day before the dict, then `title`'s and
`abstract`'s topic choices, `random.randint(1, 5)` authors count, the authors
drawn without replacement by `random.sample`, and the journal choice. -/
structure PaperCore where
  year : Nat
  month : Nat
  day : Nat
  topicTitle : String
  topicAbstract : String
  authorsJoined : String
  journal : String

/-- Lines 137–147 up to (and including) the `journal` draw. -/
def syntheticPaperCore (rng : Rng) : PaperCore × Rng :=
  let (y, r1) := rng.choice [2019, 2020, 2021, 2022] 2019
  let (mo, r2) := r1.randint 1 12
  let (d, r3) := r2.randint 1 28
  let (tt, r4) := r3.choice researchTopics ""
  let (ta, r5) := r4.choice researchTopics ""
  let (k, r6) := r5.randint 1 5
  let (auths, r7) := sampleUnseeded "" authorsPool k r6
  let (j, r8) := r7.choice journalsSynth ""
  (⟨y, mo, d, tt, ta, joinSemicolon auths, j⟩, r8)

/-- Lines 149–151: the three `random.random()` draws deciding the file-reference
fields, made at three successive positions of the float stream. -/
def fileDraws (rng : Rng) : (Rat × Rat × Rat) × Rng :=
  let (u1, r1) := rng.nextFloat
  let (u2, r2) := r1.nextFloat
  let (u3, r3) := r2.nextFloat
  ((u1, u2, u3), r3)

/-- Lines 136–153: the full synthetic paper dict for index `i`. -/
def syntheticPaper (i : Nat) (rng : Rng) : Row × Rng :=
  let c := (syntheticPaperCore rng).1
  let us := (fileDraws (syntheticPaperCore rng).2).1
  let r11 := (fileDraws (syntheticPaperCore rng).2).2
  ([Value.str ("uid" ++ padNum 6 i),
    .str (c.topicTitle ++ ": A Comprehensive Study"),
    .str ("This study examines " ++ lowerStr c.topicAbstract ++ ". Our findings suggest important implications for public health and clinical practice. The research was conducted during the COVID-19 pandemic and provides valuable insights."),
    .str (toString c.year ++ "-" ++ padNum 2 c.month ++ "-" ++ padNum 2 c.day),
    .str c.authorsJoined,
    .str c.journal,
    .str ("https://example.com/paper/" ++ toString i),
    (if pdfFileKept us.1 then .str ("pdf" ++ padNum 6 i ++ ".json") else .null),
    (if pmcFileKept us.2.1 then .str ("pmc" ++ padNum 6 i ++ ".json") else .null),
    (if whoIdKept us.2.2 then .str ("WHO_COV_" ++ padNum 6 i) else .null)], r11)

/-- The loop `for i in range(sample_size)` of lines 135–153, from index `i`
for `count` iterations. -/
def syntheticRowsAux : Nat → Nat → Rng → List Row × Rng
  | _, 0, rng => ([], rng)
  | i, c + 1, rng =>
    ((syntheticPaper i rng).1 ::
        (syntheticRowsAux (i + 1) c (syntheticPaper i rng).2).1,
      (syntheticRowsAux (i + 1) c (syntheticPaper i rng).2).2)

/-- `create_synthetic_sample(output_path, sample_size)` (lines 110–159):
builds `sample_size` synthetic papers, writes them to `output_path`
(line 156's `to_csv`, the single `WriteEvent`), and returns the table.
`pd.DataFrame([])` (the `sample_size = 0` case) has no columns. -/
def createSyntheticSample (outputPath : String) (n : Nat) (rng : Rng) :
    Table × List WriteEvent × Rng :=
  let rows := (syntheticRowsAux 0 n rng).1
  let df : Table := ⟨if rows.isEmpty then [] else augCols, rows⟩
  (df, [⟨outputPath, df⟩], (syntheticRowsAux 0 n rng).2)

/-- `create_comprehensive_sample(input_path, output_path, sample_size)`
(lines 8–108).  The CSV read of line 18 is modelled by the `input` argument
(`.error` when the file is missing or unreadable); the `except` at lines
105–108 catches every exception of the `try` body and calls
`create_synthetic_sample` with the random state reached at the raise. -/
def createComprehensiveSample (input : Except PyErr Table) (outputPath : String)
    (n : Nat) (rng : Rng) : Table × List WriteEvent × Rng :=
  match input with
  | .error _ => createSyntheticSample outputPath n rng
  | .ok dfFull =>
    match comprehensiveTry dfFull outputPath n rng with
    | .ok res => res
    | .error (_, rng') => createSyntheticSample outputPath n rng'

/-- `verify_sample(file_path)` (lines 161–176): reads the CSV (the `input`
argument), computes row/column counts and a memory estimate (total
operations), subscripts `df['title']` (line 171) and `df['publish_time']`
(line 172) — each a `KeyError` when the column is absent — and returns
`True`; any exception is caught at line 174 and yields `False`.  (`min`/`max`
of an all-null or string column do not raise.) -/
def verifySample (input : Except PyErr Table) : Bool :=
  match input with
  | .error _ => false
  | .ok df =>
    match df.getCol "title" with
    | .error _ => false
    | .ok _ =>
      match df.getCol "publish_time" with
      | .error _ => false
      | .ok _ => true

/-- Decidable equality of `Except` results, for evaluating the model at
concrete inputs. -/
instance [DecidableEq ε] [DecidableEq α] : DecidableEq (Except ε α) := fun x y =>
  match x, y with
  | .error a, .error b =>
    if h : a = b then isTrue (by rw [h]) else isFalse (by intro hc; cases hc; exact h rfl)
  | .ok a, .ok b =>
    if h : a = b then isTrue (by rw [h]) else isFalse (by intro hc; cases hc; exact h rfl)
  | .error _, .ok _ => isFalse (by intro hc; cases hc)
  | .ok _, .error _ => isFalse (by intro hc; cases hc)

/-! ## Predicates, spec-side comparison definitions, and concrete inputs -/

/-- Is the cell a (non-null) string? -/
def isStr : Value → Bool
  | .str _ => true
  | _ => false

/-- The schema-wide check on one synthetic-fallback row: ten fields, and the
seven fields other than the three file-reference fields all populated. -/
def rowCoreFilled (r : Row) : Bool :=
  decide (r.length = 10) && (r.take 7).all isStr

/-- The per-stratum draw count as the spec words it — `max(1, round(sample_size
* stratum_fraction))`, capped at the stratum size — written from the spec's
sentence for refinement comparison with `stratDraws` (whose count from the
source truncates with `int(...)` rather than rounding). -/
def specStratDrawCount (n lx total : Nat) : Nat :=
  min lx (max 1 (round ((n * lx : Rat) / (total : Rat))).toNat)

/-- The base-sample size the spec's per-stratum counts predict: the rounded
per-stratum draws, concatenated, then truncated to `n`. -/
def specStratPredictLen (t : Table) (n : Nat) : Nat :=
  min n (((stratGroups t).map fun g => specStratDrawCount n g.length t.rows.length).sum)

/-- A concrete random state: both streams constantly zero. -/
def rngZero : Rng := ⟨fun _ => 0, fun _ => 0, 0, 0⟩

/-- A concrete random state: nat stream constantly one. -/
def rngOne : Rng := ⟨fun _ => 1, fun _ => 0, 0, 0⟩

/-- Four rows, two per year stratum (2020 and 2021). -/
def tableC5 : Table :=
  ⟨["title", "publish_time"],
   [[.str "a", .str "2020-01-01"],
    [.str "b", .str "2020-02-01"],
    [.str "c", .str "2021-01-01"],
    [.str "d", .str "2021-02-01"]]⟩

/-- `tableC5` with its `temp_year` column, as the stratified step builds it. -/
def tableC5Y : Table := tableC5.setCol "temp_year"
  [.int 2020, .int 2020, .int 2021, .int 2021]

/-- Two rows in one year stratum, with distinct titles. -/
def tableC6 : Table :=
  ⟨["title", "publish_time"],
   [[.str "a", .str "2020-01-01"], [.str "b", .str "2020-01-01"]]⟩

/-- Two fully-identical rows, no date column, no keyword match, no abstract:
the boost steps pass the base sample through untouched. -/
def tableC8 : Table :=
  ⟨["title", "abstract"], [[.str "x", .null], [.str "x", .null]]⟩

/-- One row whose title matches the keyword `covid`. -/
def tableC8w : Table :=
  ⟨["title", "abstract"], [[.str "A covid paper", .null]]⟩

/-! ## Helper lemmas -/

theorem getD_cons_eraseIdx_perm (xs : List α) (i : Nat) (d : α) (h : i < xs.length) :
    List.Perm (xs.getD i d :: xs.eraseIdx i) xs := by
  induction xs generalizing i with
  | nil => simp at h
  | cons a t ih =>
    cases i with
    | zero => simp
    | succ i =>
      have h' : i < t.length := by simpa using h
      have e1 : (a :: t).getD (i + 1) d :: (a :: t).eraseIdx (i + 1)
          = t.getD i d :: a :: t.eraseIdx i := by simp
      rw [e1]
      exact List.Perm.trans (List.Perm.swap a (t.getD i d) (t.eraseIdx i))
        ((ih i h').cons a)

theorem sampleUnseeded_zero (d : α) (xs : List α) (rng : Rng) :
    sampleUnseeded d xs 0 rng = ([], rng) := by
  cases xs <;> rfl

theorem sampleUnseeded_cons (d x : α) (t : List α) (k : Nat) (rng : Rng) :
    sampleUnseeded d (x :: t) (k + 1) rng =
      ((x :: t).getD (rng.nats rng.npos % (x :: t).length) x ::
        (sampleUnseeded d ((x :: t).eraseIdx (rng.nats rng.npos % (x :: t).length)) k
          ⟨rng.nats, rng.floats, rng.npos + 1, rng.fpos⟩).1,
       (sampleUnseeded d ((x :: t).eraseIdx (rng.nats rng.npos % (x :: t).length)) k
          ⟨rng.nats, rng.floats, rng.npos + 1, rng.fpos⟩).2) := rfl

theorem sampleUnseeded_length (d : α) :
    ∀ (k : Nat) (xs : List α) (rng : Rng),
      ((sampleUnseeded d xs k rng).1).length = min k xs.length := by
  intro k
  induction k with
  | zero => intro xs rng; simp [sampleUnseeded]
  | succ k ih =>
    intro xs rng
    cases xs with
    | nil => simp [sampleUnseeded]
    | cons x t =>
      have hi : rng.nats rng.npos % (x :: t).length < (x :: t).length :=
        Nat.mod_lt _ (by simp)
      rw [sampleUnseeded_cons]
      have he : (((x :: t).eraseIdx (rng.nats rng.npos % (t.length + 1))).length)
          = t.length := by
        have hi' : rng.nats rng.npos % (t.length + 1) < (x :: t).length := by simpa using hi
        rw [List.length_eraseIdx, if_pos hi']
        simp
      simp only [List.length_cons, ih, he]
      omega

theorem sampleUnseeded_perm (d : α) :
    ∀ (k : Nat) (xs : List α) (rng : Rng), k = xs.length →
      List.Perm (sampleUnseeded d xs k rng).1 xs := by
  intro k
  induction k with
  | zero =>
    intro xs rng h
    cases xs with
    | nil => simp [sampleUnseeded]
    | cons x t => simp at h
  | succ k ih =>
    intro xs rng h
    cases xs with
    | nil => simp at h
    | cons x t =>
      have hi : rng.nats rng.npos % (x :: t).length < (x :: t).length :=
        Nat.mod_lt _ (by simp)
      rw [sampleUnseeded_cons]
      have hlen : k = ((x :: t).eraseIdx (rng.nats rng.npos % (x :: t).length)).length := by
        rw [List.length_eraseIdx]
        simp only [hi, if_pos]
        simp only [List.length_cons] at h ⊢
        omega
      exact List.Perm.trans (List.Perm.cons _ (ih _ _ hlen))
        (getD_cons_eraseIdx_perm _ _ _ hi)

theorem sampleUnseeded_subperm (d : α) :
    ∀ (k : Nat) (xs : List α) (rng : Rng),
      List.Subperm (sampleUnseeded d xs k rng).1 xs := by
  intro k
  induction k with
  | zero => intro xs rng; rw [sampleUnseeded_zero]; exact List.nil_subperm
  | succ k ih =>
    intro xs rng
    cases xs with
    | nil => exact List.nil_subperm
    | cons x t =>
      have hi : rng.nats rng.npos % (x :: t).length < (x :: t).length :=
        Nat.mod_lt _ (by simp)
      rw [sampleUnseeded_cons]
      refine List.Subperm.trans ?_ (getD_cons_eraseIdx_perm (x :: t) _ x hi).subperm
      exact (List.subperm_cons _).mpr (ih _ _)

theorem dedupAux_not_mem_seen :
    ∀ (l seen : List Row) (r : Row), r ∈ dedupAux seen l → r ∉ seen := by
  intro l
  induction l with
  | nil => intro seen r h; simp [dedupAux] at h
  | cons a t ih =>
    intro seen r h
    by_cases ha : a ∈ seen
    · rw [dedupAux, if_pos ha] at h
      exact ih seen r h
    · rw [dedupAux, if_neg ha] at h
      rcases List.mem_cons.mp h with h1 | h2
      · subst h1; exact ha
      · intro hr
        exact ih (seen ++ [a]) r h2 (List.mem_append.mpr (Or.inl hr))

theorem dedupAux_nodup : ∀ (l seen : List Row), (dedupAux seen l).Nodup := by
  intro l
  induction l with
  | nil => intro seen; simp [dedupAux]
  | cons a t ih =>
    intro seen
    by_cases ha : a ∈ seen
    · rw [dedupAux, if_pos ha]; exact ih seen
    · rw [dedupAux, if_neg ha]
      refine List.nodup_cons.mpr ⟨?_, ih (seen ++ [a])⟩
      intro hmem
      exact dedupAux_not_mem_seen t (seen ++ [a]) a hmem
        (List.mem_append.mpr (Or.inr (List.mem_singleton.mpr rfl)))

theorem dropDuplicates_nodup (t : Table) : t.dropDuplicates.rows.Nodup :=
  dedupAux_nodup t.rows []

theorem head_nodup (t : Table) (n : Nat) (h : t.rows.Nodup) : (t.head n).rows.Nodup :=
  h.sublist (List.take_sublist n t.rows)

theorem syntheticRowsAux_length :
    ∀ (c i : Nat) (rng : Rng), ((syntheticRowsAux i c rng).1).length = c := by
  intro c
  induction c with
  | zero => intro i rng; rfl
  | succ c ih => intro i rng; simp only [syntheticRowsAux, List.length_cons, ih]

theorem createSyntheticSample_length (p : String) (n : Nat) (rng : Rng) :
    ((createSyntheticSample p n rng).1).rows.length = n := by
  simp only [createSyntheticSample]
  exact syntheticRowsAux_length n 0 rng

theorem synthAugLoop_error (rng : Rng) :
    synthAugLoop rng = .error ⟨rng.nats, rng.floats, rng.npos + 4, rng.fpos⟩ := rfl

theorem comprehensiveTry_error (dfFull : Table) (p : String) (n : Nat) (rng : Rng) :
    ∃ e rng', comprehensiveTry dfFull p n rng = .error (e, rng') := by
  unfold comprehensiveTry
  rcases hb : boostSteps (baseSampleStep dfFull n rng).2.1 (baseSampleStep dfFull n rng).1 n
    with e | s3
  · simp only [hb]
    exact ⟨e, _, rfl⟩
  · simp only [hb, synthAugLoop_error]
    exact ⟨.unboundLocal, _, rfl⟩

theorem createComprehensiveSample_eq_fallback (input : Except PyErr Table) (p : String)
    (n : Nat) (rng : Rng) :
    ∃ rng', createComprehensiveSample input p n rng = createSyntheticSample p n rng' := by
  cases input with
  | error e => exact ⟨rng, rfl⟩
  | ok dfFull =>
    obtain ⟨e, rng', he⟩ := comprehensiveTry_error dfFull p n rng
    refine ⟨rng', ?_⟩
    simp only [createComprehensiveSample, he]

theorem stratDraws_spec (n total : Nat) :
    ∀ (gs : List (List Row)) (rng : Rng),
      ∃ per : List (List Row),
        (stratDraws n total gs rng).1 = per.flatten ∧
        per.length = gs.length ∧
        ∀ j, j < gs.length →
          ((per.getD j []).length
              = min (gs.getD j []).length (max 1 (n * (gs.getD j []).length / total)) ∧
            List.Subperm (per.getD j []) (gs.getD j [])) := by
  intro gs
  induction gs with
  | nil =>
    intro rng
    exact ⟨[], rfl, rfl, by intro j hj; simp at hj⟩
  | cons g gs ih =>
    intro rng
    obtain ⟨per, hjoin, hlen, hspec⟩ :=
      ih (sampleUnseeded [] g (min g.length (max 1 (n * g.length / total))) rng).2
    refine ⟨(sampleUnseeded [] g (min g.length (max 1 (n * g.length / total))) rng).1 :: per,
      ?_, ?_, ?_⟩
    · simp only [stratDraws, List.flatten_cons]
      rw [← hjoin]
    · simp only [List.length_cons, hlen]
    · intro j hj
      cases j with
      | zero =>
        constructor
        · simp only [List.getD_cons_zero]
          rw [sampleUnseeded_length]
          omega
        · simp only [List.getD_cons_zero]
          exact sampleUnseeded_subperm [] _ g _
      | succ j =>
        simp only [List.getD_cons_succ]
        exact hspec j (by simpa using hj)

theorem keywordLoop_nodup (dfFull : Table) (n : Nat) :
    ∀ (kws : List String) (acc ws : Table),
      keywordLoop dfFull n kws acc = .ok ws →
      ((∃ kw ∈ kws, (dfFull.rows.any fun r => titleMatches dfFull.cols r kw) = true) →
          ws.rows.Nodup) ∧
      (acc.rows.Nodup → ws.rows.Nodup) := by
  intro kws
  induction kws with
  | nil =>
    intro acc ws h
    simp only [keywordLoop] at h
    cases h
    constructor
    · rintro ⟨kw, hkw, _⟩; simp at hkw
    · exact id
  | cons kw kws ih =>
    intro acc ws h
    rw [keywordLoop] at h
    rcases hg : dfFull.getCol "title" with e | col
    · rw [hg] at h; cases h
    · rw [hg] at h
      by_cases hkm : 0 < (dfFull.rows.filter fun r => titleMatches dfFull.cols r kw).length
      · rw [if_pos hkm] at h
        have hnd : (((acc.concat
            ⟨dfFull.cols, sampleSeeded (dfFull.rows.filter fun r => titleMatches dfFull.cols r kw)
              (min 50 (dfFull.rows.filter fun r => titleMatches dfFull.cols r kw).length)⟩
            ).dropDuplicates).head n).rows.Nodup :=
          head_nodup _ n (dropDuplicates_nodup _)
        constructor
        · intro _; exact (ih _ ws h).2 hnd
        · intro _; exact (ih _ ws h).2 hnd
      · rw [if_neg hkm] at h
        constructor
        · rintro ⟨kw', hkw', hany⟩
          rcases List.mem_cons.mp hkw' with h1 | h2
          · subst h1
            obtain ⟨r, hr, hm⟩ := List.any_eq_true.mp hany
            exact absurd (List.length_pos.mpr
              (List.ne_nil_of_mem (List.mem_filter.mpr ⟨hr, hm⟩))) hkm
          · exact (ih acc ws h).1 ⟨kw', h2, hany⟩
        · exact (ih acc ws h).2

theorem abstractStep_cases (dfFull sdf : Table) (n : Nat) (ws : Table)
    (h : abstractStep dfFull sdf n = .ok ws) :
    ws.rows.Nodup ∨
      (ws = sdf ∧ (dfFull.rows.any fun r => abstractOk (getCell dfFull.cols r "abstract")) = false) := by
  rw [abstractStep] at h
  rcases hg : dfFull.getCol "abstract" with e | col
  · rw [hg] at h; cases h
  · rw [hg] at h
    by_cases hha : 0 < (dfFull.rows.filter fun r => abstractOk (getCell dfFull.cols r "abstract")).length
    · rw [if_pos hha] at h
      cases h
      exact Or.inl (head_nodup _ n (dropDuplicates_nodup _))
    · rw [if_neg hha] at h
      cases h
      refine Or.inr ⟨rfl, ?_⟩
      by_contra hany
      rw [Bool.not_eq_false, List.any_eq_true] at hany
      obtain ⟨r, hr, hm⟩ := hany
      exact hha (List.length_pos.mpr (List.ne_nil_of_mem (List.mem_filter.mpr ⟨hr, hm⟩)))

theorem volume_Ico_inter_gt (a : Real) (h0 : 0 ≤ a) :
    MeasureTheory.volume {x : Real | x ∈ Set.Ico (0 : Real) 1 ∧ a < x}
      = ENNReal.ofReal (1 - a) := by
  have hs : {x : Real | x ∈ Set.Ico (0 : Real) 1 ∧ a < x} = Set.Ioo a 1 := by
    ext x
    simp only [Set.mem_setOf_eq, Set.mem_Ico, Set.mem_Ioo]
    constructor
    · rintro ⟨⟨_, hx1⟩, hax⟩; exact ⟨hax, hx1⟩
    · rintro ⟨hax, hx1⟩; exact ⟨⟨le_trans h0 hax.le, hx1⟩, hax⟩
  rw [hs, Real.volume_Ioo]

theorem pdfFileKept_iff_real (q : Rat) :
    pdfFileKept q = true ↔ ((3 : Real) / 10 < (q : Real)) := by
  have h : ((3 : Real) / 10) = (((3 : Rat) / 10 : Rat) : Real) := by push_cast; ring
  rw [h]
  simp only [pdfFileKept, decide_eq_true_eq]
  exact Iff.symm Rat.cast_lt

theorem pmcFileKept_iff_real (q : Rat) :
    pmcFileKept q = true ↔ ((1 : Real) / 2 < (q : Real)) := by
  have h : ((1 : Real) / 2) = (((1 : Rat) / 2 : Rat) : Real) := by push_cast; ring
  rw [h]
  simp only [pmcFileKept, decide_eq_true_eq]
  exact Iff.symm Rat.cast_lt

theorem whoIdKept_iff_real (q : Rat) :
    whoIdKept q = true ↔ ((7 : Real) / 10 < (q : Real)) := by
  have h : ((7 : Real) / 10) = (((7 : Rat) / 10 : Rat) : Real) := by push_cast; ring
  rw [h]
  simp only [whoIdKept, decide_eq_true_eq]
  exact Iff.symm Rat.cast_lt

theorem fileDraws_positions (r : Rng) :
    (fileDraws r).1 = (r.floats r.fpos, r.floats (r.fpos + 1), r.floats (r.fpos + 2)) := rfl

theorem syntheticPaper_coreFilled (i : Nat) (r : Rng) :
    rowCoreFilled (syntheticPaper i r).1 = true := rfl

theorem syntheticPaper_pdf (i : Nat) (r : Rng) :
    (syntheticPaper i r).1.getD 7 .null =
      (if pdfFileKept (fileDraws (syntheticPaperCore r).2).1.1
        then .str ("pdf" ++ padNum 6 i ++ ".json") else .null) := rfl

theorem syntheticPaper_pmc (i : Nat) (r : Rng) :
    (syntheticPaper i r).1.getD 8 .null =
      (if pmcFileKept (fileDraws (syntheticPaperCore r).2).1.2.1
        then .str ("pmc" ++ padNum 6 i ++ ".json") else .null) := rfl

theorem syntheticPaper_who (i : Nat) (r : Rng) :
    (syntheticPaper i r).1.getD 9 .null =
      (if whoIdKept (fileDraws (syntheticPaperCore r).2).1.2.2
        then .str ("WHO_COV_" ++ padNum 6 i) else .null) := rfl

theorem syntheticRowsAux_all_coreFilled :
    ∀ (c i : Nat) (rng : Rng), ((syntheticRowsAux i c rng).1).all rowCoreFilled = true := by
  intro c
  induction c with
  | zero => intro i rng; rfl
  | succ c ih =>
    intro i rng
    simp only [syntheticRowsAux, List.all_cons, ih, syntheticPaper_coreFilled, Bool.and_self]

/-! ## The claims -/

/-- C1: for every source input and every sample size `n` (in particular every
positive one), the table `create_comprehensive_sample` returns has at most
`n` rows.  The bound holds because the synthetic-augmentation loop raises
before its 100 rows are ever appended, so every call returns the fallback's
table of exactly `n` rows; the appended-but-still-bounded reading of the
claim is vacuously covered. -/
theorem claim_C1_size_le (input : Except PyErr Table) (p : String) (n : Nat)
    (rng : Rng) (_h : 0 < n) :
    ((createComprehensiveSample input p n rng).1).rows.length ≤ n := by
  obtain ⟨rng', he⟩ := createComprehensiveSample_eq_fallback input p n rng
  rw [he, createSyntheticSample_length]

/-- C1 witness: the bound at the concrete input `n = 3` on an unreadable
source. -/
theorem claim_C1_size_le_witness :
    0 < 3 ∧
    ((createComprehensiveSample (.error .readError) "data/metadata_sample.csv" 3
        rngZero).1).rows.length ≤ 3 :=
  ⟨by decide,
    claim_C1_size_le (.error .readError) "data/metadata_sample.csv" 3 rngZero (by decide)⟩

/-- C2: `create_comprehensive_sample` never raises — it is a total function
in the model, every internal error of the `try` body is caught by the
handler of lines 105–108 and redirected to `create_synthetic_sample` — and
it always returns a table of exactly `n` rows, hence of size at most `n`. -/
theorem claim_C2_total_fallback (input : Except PyErr Table) (p : String) (n : Nat)
    (rng : Rng) :
    ∃ rng', createComprehensiveSample input p n rng = createSyntheticSample p n rng' ∧
      ((createComprehensiveSample input p n rng).1).rows.length = n ∧
      ((createComprehensiveSample input p n rng).1).rows.length ≤ n := by
  obtain ⟨rng', he⟩ := createComprehensiveSample_eq_fallback input p n rng
  refine ⟨rng', he, ?_, ?_⟩ <;> rw [he, createSyntheticSample_length]

/-- C3: even when the source CSV is read successfully (`input = .ok t`),
`create_comprehensive_sample` returns the result of `create_synthetic_sample`
and never a table of sampled real rows: the augmentation loop evaluates the
name `synthetic` inside the dict literal defining it, which is unbound on its
first iteration, so `synthAugLoop` always raises and the catch-all diverts
every call to the fallback. -/
theorem claim_C3_always_synthetic (t : Table) (p : String) (n : Nat) (rng : Rng) :
    (∀ r : Rng, synthAugLoop r = .error ⟨r.nats, r.floats, r.npos + 4, r.fpos⟩) ∧
    ∃ rng', createComprehensiveSample (.ok t) p n rng = createSyntheticSample p n rng' :=
  ⟨fun r => synthAugLoop_error r,
    createComprehensiveSample_eq_fallback (.ok t) p n rng⟩

/-- C9 counterexample: at the default sample size on an unreadable source,
`create_comprehensive_sample` performs a persistence side effect — its write
log is non-empty (the fallback's `to_csv` at line 156; the main path's
`to_csv` at line 90 is unreachable), contradicting the claim that it does not
itself persist anything. -/
theorem claim_C9_counterexample :
    (createComprehensiveSample (.error .readError) "data/metadata_sample.csv" 10000
        rngZero).2.1 ≠ [] := by
  intro h
  simp only [createComprehensiveSample, createSyntheticSample] at h
  cases h

/-- C9 amended: `create_comprehensive_sample` does persist to storage — every
call performs exactly one write, of the table it returns, to the output
path (via the fallback's `to_csv`); there are no other side effects in the
model. -/
theorem claim_C9_amended (input : Except PyErr Table) (p : String) (n : Nat) (rng : Rng) :
    (createComprehensiveSample input p n rng).2.1 =
      [⟨p, (createComprehensiveSample input p n rng).1⟩] := by
  obtain ⟨rng', he⟩ := createComprehensiveSample_eq_fallback input p n rng
  rw [he]
  rfl

/-- C10: `verify_sample` never raises (it is a total Boolean function in the
model); it returns `true` exactly when the CSV read succeeds and both checked
columns (`title`, line 171, and `publish_time`, line 172) are present — in
particular it returns `false`, without raising, on a table missing the
`title` column, and `true` on a well-formed output table. -/
theorem claim_C10_verify (input : Except PyErr Table) :
    verifySample input = true ↔
      ∃ t, input = .ok t ∧ t.hasCol "title" = true ∧ t.hasCol "publish_time" = true := by
  cases input with
  | error e => simp [verifySample]
  | ok t =>
    simp only [verifySample, Table.getCol]
    by_cases h1 : t.hasCol "title" <;> by_cases h2 : t.hasCol "publish_time" <;>
      simp [h1, h2]

/-- C4: for every sample size `n` and random state, `create_synthetic_sample`
returns exactly `n` rows; every row has all ten schema fields with the seven
non-file fields populated (non-null); each of the three file-reference fields
of a row is non-null exactly when its dedicated `random.random()` draw
exceeds 0.3, 0.5, 0.7 respectively — three draws taken at distinct successive
stream positions, hence independent — and under the uniform measure on
`[0, 1)` each threshold test succeeds with probability 7/10, 5/10, 3/10
(70%, 50%, 30%). -/
theorem claim_C4_synthetic_profile (p : String) (n : Nat) (rng : Rng) :
    ((createSyntheticSample p n rng).1).rows.length = n ∧
    ((createSyntheticSample p n rng).1).rows.all rowCoreFilled = true ∧
    (∀ (i : Nat) (r : Rng),
      ((syntheticPaper i r).1.getD 7 .null ≠ .null ↔
        pdfFileKept (fileDraws (syntheticPaperCore r).2).1.1 = true) ∧
      ((syntheticPaper i r).1.getD 8 .null ≠ .null ↔
        pmcFileKept (fileDraws (syntheticPaperCore r).2).1.2.1 = true) ∧
      ((syntheticPaper i r).1.getD 9 .null ≠ .null ↔
        whoIdKept (fileDraws (syntheticPaperCore r).2).1.2.2 = true)) ∧
    (∀ r : Rng, (fileDraws r).1 =
      (r.floats r.fpos, r.floats (r.fpos + 1), r.floats (r.fpos + 2))) ∧
    (∀ q : Rat, pdfFileKept q = true ↔ ((3 : Real) / 10 < (q : Real))) ∧
    (∀ q : Rat, pmcFileKept q = true ↔ ((1 : Real) / 2 < (q : Real))) ∧
    (∀ q : Rat, whoIdKept q = true ↔ ((7 : Real) / 10 < (q : Real))) ∧
    MeasureTheory.volume {x : Real | x ∈ Set.Ico (0 : Real) 1 ∧ (3 : Real) / 10 < x}
      = ENNReal.ofReal (7 / 10) ∧
    MeasureTheory.volume {x : Real | x ∈ Set.Ico (0 : Real) 1 ∧ (1 : Real) / 2 < x}
      = ENNReal.ofReal (5 / 10) ∧
    MeasureTheory.volume {x : Real | x ∈ Set.Ico (0 : Real) 1 ∧ (7 : Real) / 10 < x}
      = ENNReal.ofReal (3 / 10) := by
  refine ⟨createSyntheticSample_length p n rng,
    syntheticRowsAux_all_coreFilled n 0 rng, ?_, fileDraws_positions,
    pdfFileKept_iff_real, pmcFileKept_iff_real, whoIdKept_iff_real, ?_, ?_, ?_⟩
  · intro i r
    refine ⟨?_, ?_, ?_⟩
    · rw [syntheticPaper_pdf]
      by_cases h : pdfFileKept (fileDraws (syntheticPaperCore r).2).1.1 <;> simp [h]
    · rw [syntheticPaper_pmc]
      by_cases h : pmcFileKept (fileDraws (syntheticPaperCore r).2).1.2.1 <;> simp [h]
    · rw [syntheticPaper_who]
      by_cases h : whoIdKept (fileDraws (syntheticPaperCore r).2).1.2.2 <;> simp [h]
  · rw [volume_Ico_inter_gt (3 / 10) (by norm_num)]
    norm_num
  · rw [volume_Ico_inter_gt (1 / 2) (by norm_num)]
    norm_num
  · rw [volume_Ico_inter_gt (7 / 10) (by norm_num)]
    norm_num

/-- C5 counterexample: on a four-row source with strata {2020: 2 rows,
2021: 2 rows} and `sample_size = 3`, the code's stratified step (reached via
`stratAttempt` on the raw table) draws `int(3·2/4) = 1` row per stratum and
returns a 2-row base sample, while the claim's `max(1, round(3·2/4)) = 2` per
stratum would survive truncation as 3 rows: the claimed count formula does
not match the code. -/
theorem claim_C5_counterexample :
    stratAttempt tableC5 3 rngZero =
      .ok ((stratifiedSample tableC5Y 3 rngZero).1, tableC5,
        (stratifiedSample tableC5Y 3 rngZero).2) ∧
    ((stratifiedSample tableC5Y 3 rngZero).1).rows.length = 2 ∧
    specStratPredictLen tableC5Y 3 = 3 ∧
    ((stratifiedSample tableC5Y 3 rngZero).1).rows.length ≠ specStratPredictLen tableC5Y 3 := by
  have hg : (stratGroups tableC5Y).map List.length = [2, 2] := by decide
  have hc : specStratDrawCount 3 2 4 = 2 := by
    unfold specStratDrawCount
    norm_num [round_eq]
  have hpred : specStratPredictLen tableC5Y 3 = 3 := by
    unfold specStratPredictLen
    have hrows : tableC5Y.rows.length = 4 := by decide
    simp only [hrows]
    rw [show (fun (g : List Row) => specStratDrawCount 3 g.length 4)
        = ((fun lx => specStratDrawCount 3 lx 4) ∘ List.length) from rfl]
    rw [← List.map_map, hg]
    simp [hc]
  have hlen : ((stratifiedSample tableC5Y 3 rngZero).1).rows.length = 2 := by decide
  exact ⟨rfl, hlen, hpred, by rw [hlen, hpred]; decide⟩

/-- C5 amended: in the stratified base sample, each year stratum contributes
a draw without replacement of `min(len(x), max(1, ⌊sample_size · len(x) /
|source|⌋))` rows — Python's `int()` truncation (floor), where the claim said
`round` — and the concatenated per-stratum draws are then shuffled (a
permutation) and truncated to `sample_size`. -/
theorem claim_C5_amended (t : Table) (n : Nat) (rng : Rng) :
    ∃ (per : List (List Row)) (shuffled : List Row),
      per.length = (stratGroups t).length ∧
      (∀ j, j < (stratGroups t).length →
        ((per.getD j []).length = min ((stratGroups t).getD j []).length
            (max 1 (n * ((stratGroups t).getD j []).length / t.rows.length)) ∧
          List.Subperm (per.getD j []) ((stratGroups t).getD j []))) ∧
      List.Perm shuffled per.flatten ∧
      ((stratifiedSample t n rng).1).rows = shuffled.take n := by
  obtain ⟨per, hjoin, hlen, hspec⟩ := stratDraws_spec n t.rows.length (stratGroups t) rng
  refine ⟨per,
    (sampleUnseeded [] (stratDraws n t.rows.length (stratGroups t) rng).1
      (stratDraws n t.rows.length (stratGroups t) rng).1.length
      (stratDraws n t.rows.length (stratGroups t) rng).2).1,
    hlen, hspec, ?_, rfl⟩
  rw [← hjoin]
  exact sampleUnseeded_perm [] _ _ _ rfl

/-- C6 counterexample: the stratified draw of the base-sample step carries no
`random_state` — on a fixed two-row source with one year stratum and
`sample_size = 1`, two runs under different global random states return
different base samples, refuting the claim that the base-sample step is
reproducible across runs. -/
theorem claim_C6_counterexample :
    (baseSampleStep tableC6 1 rngZero).1 ≠ (baseSampleStep tableC6 1 rngOne).1 := by
  decide

/-- C6 amended: only the uniform fallback draw (and the boost draws) use the
fixed seed 42; the stratified per-stratum draws and the shuffle are unseeded.
Consequently the base-sample step is reproducible — independent of the global
random state — precisely on the fallback path, e.g. whenever the date column
is absent. -/
theorem claim_C6_amended (dfFull : Table) (n : Nat) (r1 r2 : Rng)
    (h : dfFull.hasCol "publish_time" = false) :
    (baseSampleStep dfFull n r1).1 = (baseSampleStep dfFull n r2).1 := by
  simp [baseSampleStep, h]

/-- C6 witness: the fallback base sample at a concrete dateless table is the
same under two different random states. -/
theorem claim_C6_amended_witness :
    tableC8.hasCol "publish_time" = false ∧
    (baseSampleStep tableC8 5 rngZero).1 = (baseSampleStep tableC8 5 rngOne).1 :=
  ⟨by decide, claim_C6_amended tableC8 5 rngZero rngOne (by decide)⟩

/-- C7: when the date column is absent — or were the stratified attempt to
fail (the structural `except` branch of lines 34–36, never exercised by the
total model of CSV-cell operations) — the base-sample step degrades to the
seeded uniform draw of exactly `min(sample_size, |source|)` rows instead of
failing. -/
theorem claim_C7_uniform_fallback (dfFull : Table) (n : Nat) (rng : Rng)
    (h : dfFull.hasCol "publish_time" = false ∨
      ∃ e, stratAttempt dfFull n rng = .error e) :
    (baseSampleStep dfFull n rng).1 = uniformFallback dfFull n ∧
    ((baseSampleStep dfFull n rng).1).rows.length = min n dfFull.rows.length := by
  have hunif : (uniformFallback dfFull n).rows.length = min n dfFull.rows.length := by
    simp only [uniformFallback, sampleSeeded, List.length_take]
    omega
  rcases h with h | ⟨e, he⟩
  · constructor
    · simp [baseSampleStep, h]
    · simp [baseSampleStep, h, hunif]
  · by_cases hc : dfFull.hasCol "publish_time"
    · constructor
      · simp [baseSampleStep, hc, he]
      · simp [baseSampleStep, hc, he, hunif]
    · constructor
      · simp [baseSampleStep, hc]
      · simp [baseSampleStep, hc, hunif]

/-- C7 witness: at a concrete dateless two-row table with `sample_size = 5`
the base sample is the seeded uniform draw of `min(5, 2) = 2` rows. -/
theorem claim_C7_uniform_fallback_witness :
    (tableC8.hasCol "publish_time" = false ∨
      ∃ e, stratAttempt tableC8 5 rngZero = .error e) ∧
    (baseSampleStep tableC8 5 rngZero).1 = uniformFallback tableC8 5 ∧
    ((baseSampleStep tableC8 5 rngZero).1).rows.length = min 5 tableC8.rows.length :=
  ⟨Or.inl (by decide), claim_C7_uniform_fallback tableC8 5 rngZero (Or.inl (by decide))⟩

/-- C8 counterexample: a source of two fully-identical rows with no date
column, no keyword match and no qualifying abstract reaches the end of steps
2–3 with both duplicates still in the working set — the claimed
no-duplicates invariant fails when no boost draw (and hence no
`drop_duplicates`) executes. -/
theorem claim_C8_counterexample :
    workingSetAfterBoosts tableC8 5 rngZero =
      .ok ⟨["title", "abstract"], [[.str "x", .null], [.str "x", .null]]⟩ ∧
    ¬ (([[Value.str "x", Value.null], [Value.str "x", Value.null]] : List Row).Nodup) := by
  constructor
  · decide
  · decide

/-- C8 amended: after steps 2–3 the working set contains no two rows that are
equal on every (aligned) field, provided at least one boost union actually
executed — some keyword matches a title, or some abstract passes the length
test; otherwise the working set is the untouched base sample, which may
contain duplicates. -/
theorem claim_C8_amended (dfFull sdf : Table) (n : Nat) (ws : Table)
    (hok : boostSteps dfFull sdf n = .ok ws)
    (hcond : (∃ kw ∈ covidKeywords,
        (dfFull.rows.any fun r => titleMatches dfFull.cols r kw) = true) ∨
      (dfFull.rows.any fun r => abstractOk (getCell dfFull.cols r "abstract")) = true) :
    ws.rows.Nodup := by
  rw [boostSteps] at hok
  cases hk : keywordLoop dfFull n covidKeywords sdf with
  | error e => rw [hk] at hok; cases hok
  | ok s2 =>
    rw [hk] at hok
    rcases abstractStep_cases dfFull s2 n ws hok with hnd | ⟨hws, hfalse⟩
    · exact hnd
    · rcases hcond with hkw | hab
      · rw [hws]
        exact (keywordLoop_nodup dfFull n covidKeywords sdf s2 hk).1 hkw
      · rw [hab] at hfalse; cases hfalse

/-- C8 witness: a one-row table whose title matches `covid`; the boost steps
return it deduplicated. -/
theorem claim_C8_amended_witness :
    boostSteps tableC8w tableC8w 5 = .ok tableC8w ∧
    (∃ kw ∈ covidKeywords,
      (tableC8w.rows.any fun r => titleMatches tableC8w.cols r kw) = true) ∧
    tableC8w.rows.Nodup :=
  ⟨by decide, ⟨"covid", by decide, by decide⟩,
    claim_C8_amended tableC8w tableC8w 5 tableC8w (by decide)
      (Or.inl ⟨"covid", by decide, by decide⟩)⟩
